import Mathlib

/-!
Verification of the E-Waste-Bank-System/ebs-ai detection enrichment pipeline.

Shallow embedding of the Python source under `src/`:
  - `src/services/detection_service.py` (IoU, overlap suppression, orchestration)
  - `src/services/gemini_service.py` (validation / damage / description / suggestions)
  - `src/utils/mappings.py` (category mapping tables)
  - `src/utils/helpers.py` (risk level)
  - `src/config/settings.py` (thresholds)

Python floats are modelled as rationals (the code only compares, adds,
subtracts, multiplies and divides them).  External capabilities (Gemini,
the price regressor) are modelled by explicit outcome data passed in as
environment values, exactly at the boundary where the source consumes
their results.
-/

namespace EbsAi

/-- Axis-aligned bounding box `[x1, y1, x2, y2]` (`Detection.bbox` in
`src/models/response_models.py`). -/
structure Box where
  x1 : ℚ
  y1 : ℚ
  x2 : ℚ
  y2 : ℚ
deriving DecidableEq, Repr

/-- `Detection` pydantic model (`src/models/response_models.py`). -/
structure Detection where
  id : String
  category : String
  confidence : ℚ
  bbox : Box
deriving DecidableEq, Repr

/-- Intersection area computed by `DetectionService._calculate_iou`
(`src/services/detection_service.py`, lines 59-66):
`max(0, x2 - x1) * max(0, y2 - y1)` for the clipped rectangle. -/
def interArea (box1 box2 : Box) : ℚ :=
  max 0 (min box1.x2 box2.x2 - max box1.x1 box2.x1) *
    max 0 (min box1.y2 box2.y2 - max box1.y1 box2.y1)

/-- Area `(x2 - x1) * (y2 - y1)` of one box, as computed inside
`_calculate_iou` (lines 69-70). -/
def boxArea (b : Box) : ℚ := (b.x2 - b.x1) * (b.y2 - b.y1)

/-- Union area `box1_area + box2_area - intersection` (line 71). -/
def unionArea (box1 box2 : Box) : ℚ :=
  boxArea box1 + boxArea box2 - interArea box1 box2

/-- `DetectionService._calculate_iou` (`src/services/detection_service.py`,
lines 48-73): `intersection / union if union > 0 else 0`. -/
def calculate_iou (box1 box2 : Box) : ℚ :=
  if 0 < unionArea box1 box2 then interArea box1 box2 / unionArea box1 box2 else 0

/-- Stable insertion of a detection into a confidence-descending list:
the new element goes after every already-present element whose confidence
is `≥` its own.  Together with `sortByConfDesc` this models Python's
stable `sorted(detections, key=lambda x: x.confidence, reverse=True)`
(line 90): descending by confidence, ties keep original input order. -/
def insertByConf (d : Detection) : List Detection → List Detection
  | [] => [d]
  | x :: xs => if d.confidence ≤ x.confidence then x :: insertByConf d xs else d :: x :: xs

/-- Stable sort by confidence descending (`sorted(..., key=confidence,
reverse=True)`, line 90).  Elements are inserted left to right, so equal
confidences keep their original relative order. -/
def sortByConfDesc (l : List Detection) : List Detection :=
  l.foldl (fun acc d => insertByConf d acc) []

/-- `DetectionService._filter_overlapping_detections`
(`src/services/detection_service.py`, lines 75-106).  The Python default
`iou_threshold=0.5` is passed explicitly as `1/2` at every call site. -/
def filter_overlapping_detections (detections : List Detection) (iou_threshold : ℚ) :
    List Detection :=
  match detections with
  | [] => []
  | _ :: _ =>
    (sortByConfDesc detections).foldl
      (fun filtered det =>
        if filtered.any (fun accepted => iou_threshold < calculate_iou det.bbox accepted.bbox)
        then filtered
        else filtered ++ [det])
      []

/-- Modelled from the spec: iteration step of the greedy reference
algorithm of §4.1 — accept a detection iff its IoU against every
already-accepted detection is `≤ iouThreshold`. -/
def suppressGo (thr : ℚ) : List Detection → List Detection → List Detection
  | [], accepted => accepted
  | d :: ds, accepted =>
    if accepted.all (fun a => calculate_iou d.bbox a.bbox ≤ thr)
    then suppressGo thr ds (accepted ++ [d])
    else suppressGo thr ds accepted

/-- Modelled from the spec: `Suppress(detections, iouThreshold)` of §4.1 —
sort by confidence descending (stable tie-break: original input order),
then iterate in that order accepting a detection iff its IoU against every
already-accepted detection is `≤ iouThreshold`. -/
def Suppress (detections : List Detection) (iouThreshold : ℚ) : List Detection :=
  suppressGo iouThreshold (sortByConfDesc detections) []

theorem foldl_filter_eq_suppressGo (thr : ℚ) :
    ∀ (l acc : List Detection),
      l.foldl
        (fun filtered det =>
          if filtered.any (fun accepted => thr < calculate_iou det.bbox accepted.bbox)
          then filtered
          else filtered ++ [det]) acc
      = suppressGo thr l acc := by
  intro l
  induction l with
  | nil => intro acc; rfl
  | cons d ds ih =>
    intro acc
    have hPQ : ((acc.any fun accepted => decide (thr < calculate_iou d.bbox accepted.bbox)) = true)
        ↔ ¬((acc.all fun a => decide (calculate_iou d.bbox a.bbox ≤ thr)) = true) := by
      simp [List.any_eq_true, List.all_eq_true, not_le]
    simp only [List.foldl_cons, suppressGo]
    by_cases hQ : (acc.all fun a => decide (calculate_iou d.bbox a.bbox ≤ thr)) = true
    · rw [if_neg (fun hP => (hPQ.mp hP) hQ), if_pos hQ]
      exact ih (acc ++ [d])
    · rw [if_pos (hPQ.mpr hQ), if_neg hQ]
      exact ih acc

theorem filter_overlapping_eq_Suppress (detections : List Detection) (thr : ℚ) :
    filter_overlapping_detections detections thr = Suppress detections thr := by
  cases detections with
  | nil => rfl
  | cons d ds =>
    simp only [filter_overlapping_detections, Suppress]
    exact foldl_filter_eq_suppressGo thr (sortByConfDesc (d :: ds)) []

theorem interArea_comm (b1 b2 : Box) : interArea b1 b2 = interArea b2 b1 := by
  unfold interArea
  rw [min_comm b1.x2, max_comm b1.x1, min_comm b1.y2, max_comm b1.y1]

theorem unionArea_comm (b1 b2 : Box) : unionArea b1 b2 = unionArea b2 b1 := by
  unfold unionArea
  rw [interArea_comm, add_comm (boxArea b1)]

theorem calculate_iou_comm (b1 b2 : Box) : calculate_iou b1 b2 = calculate_iou b2 b1 := by
  unfold calculate_iou
  rw [interArea_comm, unionArea_comm]

theorem suppressGo_pairwise (thr : ℚ) :
    ∀ (l acc : List Detection),
      acc.Pairwise (fun a b => calculate_iou a.bbox b.bbox ≤ thr) →
      (suppressGo thr l acc).Pairwise (fun a b => calculate_iou a.bbox b.bbox ≤ thr) := by
  intro l
  induction l with
  | nil => intro acc h; exact h
  | cons d ds ih =>
    intro acc hacc
    simp only [suppressGo]
    by_cases hQ : (acc.all fun a => decide (calculate_iou d.bbox a.bbox ≤ thr)) = true
    · rw [if_pos hQ]
      apply ih
      refine List.pairwise_append.mpr ⟨hacc, List.pairwise_singleton _ _, ?_⟩
      intro a ha b hb
      have hb' : b = d := by simpa using hb
      subst hb'
      have h1 : calculate_iou b.bbox a.bbox ≤ thr := by
        simpa using List.all_eq_true.mp hQ a ha
      rw [calculate_iou_comm] at h1
      exact h1
    · rw [if_neg hQ]
      exact ih acc hacc

theorem filter_overlapping_pairwise (detections : List Detection) (thr : ℚ) :
    (filter_overlapping_detections detections thr).Pairwise
      (fun a b => calculate_iou a.bbox b.bbox ≤ thr) := by
  rw [filter_overlapping_eq_Suppress]
  exact suppressGo_pairwise thr (sortByConfDesc detections) [] List.Pairwise.nil

theorem interArea_nonneg (b1 b2 : Box) : 0 ≤ interArea b1 b2 :=
  mul_nonneg (le_max_left 0 _) (le_max_left 0 _)

/-- A box of the shape the spec allows for `IoU`: proper (`x1 < x2`,
`y1 < y2`) or degenerate with zero area. -/
def WellFormedBox (b : Box) : Prop := (b.x1 < b.x2 ∧ b.y1 < b.y2) ∨ boxArea b = 0

theorem boxArea_nonneg {b : Box} (h : WellFormedBox b) : 0 ≤ boxArea b := by
  rcases h with ⟨h1, h2⟩ | h0
  · exact le_of_lt (mul_pos (by linarith) (by linarith))
  · rw [h0]

theorem interArea_le_left {b1 : Box} (b2 : Box) (h : WellFormedBox b1) :
    interArea b1 b2 ≤ boxArea b1 := by
  have hminx := min_le_left b1.x2 b2.x2
  have hmaxx := le_max_left b1.x1 b2.x1
  have hminy := min_le_left b1.y2 b2.y2
  have hmaxy := le_max_left b1.y1 b2.y1
  rcases h with ⟨h1, h2⟩ | h0
  · unfold interArea boxArea
    have hw : max 0 (min b1.x2 b2.x2 - max b1.x1 b2.x1) ≤ b1.x2 - b1.x1 :=
      max_le (by linarith) (by linarith)
    have hh : max 0 (min b1.y2 b2.y2 - max b1.y1 b2.y1) ≤ b1.y2 - b1.y1 :=
      max_le (by linarith) (by linarith)
    exact mul_le_mul hw hh (le_max_left 0 _) (by linarith)
  · unfold boxArea at h0
    rcases mul_eq_zero.mp h0 with hx | hy
    · have hw : max 0 (min b1.x2 b2.x2 - max b1.x1 b2.x1) = 0 :=
        max_eq_left (by linarith)
      unfold interArea boxArea
      rw [hw, zero_mul]
      exact le_of_eq h0.symm
    · have hh : max 0 (min b1.y2 b2.y2 - max b1.y1 b2.y1) = 0 :=
        max_eq_left (by linarith)
      unfold interArea boxArea
      rw [hh, mul_zero]
      exact le_of_eq h0.symm

theorem interArea_le_right (b1 : Box) {b2 : Box} (h : WellFormedBox b2) :
    interArea b1 b2 ≤ boxArea b2 := by
  rw [interArea_comm]
  exact interArea_le_left b1 h

/-- C10: for every pair of axis-aligned boxes that are proper
(`x1 < x2`, `y1 < y2`) or degenerate with zero area, `_calculate_iou`
is nonnegative and at most `1`, returns `0` when the boxes do not
overlap (intersection area `0`), returns `0` when the union area is
`0`, and otherwise equals intersection area divided by union area. -/
theorem C10_iou_properties :
    ∀ (box1 box2 : Box), WellFormedBox box1 → WellFormedBox box2 →
      0 ≤ calculate_iou box1 box2 ∧
      calculate_iou box1 box2 ≤ 1 ∧
      (interArea box1 box2 = 0 → calculate_iou box1 box2 = 0) ∧
      (unionArea box1 box2 = 0 → calculate_iou box1 box2 = 0) ∧
      (0 < unionArea box1 box2 →
        calculate_iou box1 box2 = interArea box1 box2 / unionArea box1 box2) := by
  intro b1 b2 h1 h2
  have hint : 0 ≤ interArea b1 b2 := interArea_nonneg b1 b2
  have hle1 : interArea b1 b2 ≤ boxArea b1 := interArea_le_left b2 h1
  have hle2 : interArea b1 b2 ≤ boxArea b2 := interArea_le_right b1 h2
  have ha1 : 0 ≤ boxArea b1 := boxArea_nonneg h1
  have ha2 : 0 ≤ boxArea b2 := boxArea_nonneg h2
  have hiu : interArea b1 b2 ≤ unionArea b1 b2 := by unfold unionArea; linarith
  refine ⟨?_, ?_, ?_, ?_, ?_⟩
  · unfold calculate_iou
    split
    · exact div_nonneg hint (le_of_lt (by assumption))
    · exact le_refl 0
  · unfold calculate_iou
    split
    · exact (div_le_one (by assumption)).mpr hiu
    · exact zero_le_one
  · intro hzero
    unfold calculate_iou
    rw [hzero]
    split
    · exact zero_div _
    · rfl
  · intro hu
    unfold calculate_iou
    rw [hu]
    simp
  · intro hu
    unfold calculate_iou
    rw [if_pos hu]

/-- C10 witness: the theorem applied to the concrete boxes
`[0,0,2,2]` and `[1,1,3,3]`. -/
theorem C10_iou_properties_witness :
    WellFormedBox ⟨0, 0, 2, 2⟩ ∧ WellFormedBox ⟨1, 1, 3, 3⟩ ∧
    0 ≤ calculate_iou ⟨0, 0, 2, 2⟩ ⟨1, 1, 3, 3⟩ ∧
    calculate_iou ⟨0, 0, 2, 2⟩ ⟨1, 1, 3, 3⟩ ≤ 1 := by
  have hw1 : WellFormedBox ⟨0, 0, 2, 2⟩ := Or.inl (by norm_num)
  have hw2 : WellFormedBox ⟨1, 1, 3, 3⟩ := Or.inl (by norm_num)
  have h := C10_iou_properties ⟨0, 0, 2, 2⟩ ⟨1, 1, 3, 3⟩ hw1 hw2
  exact ⟨hw1, hw2, h.1, h.2.1⟩

/-- `LOW_CONFIDENCE_THRESHOLD = 0.5` (`src/config/settings.py`, line 42). -/
def LOW_CONFIDENCE_THRESHOLD : ℚ := 1/2

/-- `YOLO_TO_PRICE_MAP` (`src/utils/mappings.py`, lines 29-134); a Python
dict with distinct keys, modelled as an association list in source order. -/
def YOLO_TO_PRICE_MAP : List (String × String) := [
  ("Computer-Keyboard", "Keyboard"),
  ("Electronic-Keyboard", "Keyboard"),
  ("Computer-Mouse", "Mouse"),
  ("Desktop-PC", "Komponen CPU"),
  ("Server", "Komponen CPU"),
  ("PCB", "Komponen CPU"),
  ("HDD", "Hardisk"),
  ("SSD", "Hardisk"),
  ("USB-Flash-Drive", "Flashdisk"),
  ("Laptop", "Laptop"),
  ("Flat-Panel-Monitor", "Monitor"),
  ("CRT-Monitor", "Monitor"),
  ("Digital-Oscilloscope", "Monitor"),
  ("Patient-Monitoring-System", "Monitor"),
  ("Projector", "Monitor"),
  ("Flat-Panel-TV", "TV"),
  ("CRT-TV", "TV"),
  ("TV-Remote-Control", "Remot"),
  ("Smartphone", "Handphone"),
  ("Bar-Phone", "Handphone"),
  ("Smart-Watch", "Jam Tangan"),
  ("Tablet", "Handphone"),
  ("Camera", "Camera"),
  ("PlayStation-5", "PS2"),
  ("Xbox-Series-X", "PS2"),
  ("Speaker", "Speaker"),
  ("Headphone", "Speaker"),
  ("Music-Player", "Speaker"),
  ("Electric-Guitar", "Speaker"),
  ("Power-Adapter", "Adaptor /Kilo"),
  ("Battery", "Baterai Laptop"),
  ("Microwave", "Microwave"),
  ("Coffee-Machine", "Oven"),
  ("Oven", "Oven"),
  ("Stove", "Kompor Listrik"),
  ("Toaster", "Oven"),
  ("Refrigerator", "Komponen Kulkas"),
  ("Freezer", "Komponen Kulkas"),
  ("Cooled-Dispenser", "Komponen Kulkas"),
  ("Non-Cooled-Dispenser", "Komponen Kulkas"),
  ("Cooling-Display", "Komponen Kulkas"),
  ("Clothes-Iron", "Seterika"),
  ("Boiler", "Kompor Listrik"),
  ("Hair-Dryer", "Hair Dryer"),
  ("Rotary-Mower", "Kipas"),
  ("Soldering-Iron", "Solder"),
  ("Vacuum-Cleaner", "Vacum Cleaner"),
  ("Washing-Machine", "Mesin Cuci"),
  ("Dishwasher", "Mesin Cuci"),
  ("Tumble-Dryer", "Mesin Cuci"),
  ("Ceiling-Fan", "Kipas"),
  ("Floor-Fan", "Kipas"),
  ("Exhaust-Fan", "Kipas"),
  ("Range-Hood", "Kipas"),
  ("Air-Conditioner", "AC"),
  ("Dehumidifier", "AC"),
  ("Printer", "Printer"),
  ("Calculator", "Alat Tes Vol"),
  ("Router", "Router"),
  ("Network-Switch", "Router"),
  ("LED-Bulb", "Lampu"),
  ("Table-Lamp", "Lampu"),
  ("Straight-Tube-Fluorescent-Lamp", "Lampu"),
  ("Compact-Fluorescent-Lamps", "Lampu"),
  ("Christmas-Lights", "Lampu"),
  ("Neon-Sign", "Neon Box"),
  ("Street-Lamp", "Lampu"),
  ("Blood-Pressure-Monitor", "Alat Tensi"),
  ("Electrocardiograph-Machine", "Monitor"),
  ("Glucose-Meter", "Alat Tes Vol"),
  ("Pulse-Oximeter", "Alat Tes Vol"),
  ("Drone", "Kipas"),
  ("Electric-Bicycle", "Aki Motor"),
  ("Photovoltaic-Panel", "Panel Surya"),
  ("Telephone-Set", "Telefon"),
  ("Flashlight", "Senter"),
  ("Smoke-Detector", "Monitor")]

/-- `PRICE_CATEGORIES` (`src/utils/mappings.py`, lines 137-146), the
SupportedCategorySet; a Python set, modelled as a list in source order. -/
def PRICE_CATEGORIES : List String := [
  "AC", "Adaptor /Kilo", "Aki Motor", "Alat Tensi", "Alat Tes Vol",
  "Baterai Laptop", "Camera", "CPU Intel", "Flashdisk", "Hair Dryer",
  "Handphone", "Hardisk", "Jam Tangan", "Keyboard", "Kipas",
  "Komponen CPU", "Komponen Kulkas", "Kompor Listrik", "Lampu", "Laptop",
  "Mesin Cuci", "Microwave", "Monitor", "Mouse", "Neon Box",
  "Oven", "Panel Surya", "Printer", "PS2", "Remot",
  "Router", "Senter", "Seterika", "Solder", "Speaker", "Telefon",
  "TV", "Vacum Cleaner"]

/-- `get_mapped_category` (`src/utils/mappings.py`, lines 148-150):
`YOLO_TO_PRICE_MAP.get(yolo_class_name, yolo_class_name)`. -/
def get_mapped_category (yolo_class_name : String) : String :=
  (YOLO_TO_PRICE_MAP.lookup yolo_class_name).getD yolo_class_name

/-- `is_valid_price_category` (`src/utils/mappings.py`, lines 152-154):
`category in PRICE_CATEGORIES`. -/
def is_valid_price_category (category : String) : Bool :=
  PRICE_CATEGORIES.contains category

/-- The `base_risk` dict inside `calculate_risk_level`
(`src/utils/helpers.py`, lines 122-126). -/
def base_risk : List (String × ℕ) := [
  ("TV", 4), ("Monitor", 4), ("Refrigerator", 5), ("Air-Conditioner", 5),
  ("Smartphone", 4), ("Laptop", 4), ("Desktop-PC", 3), ("Printer", 3),
  ("Keyboard", 2), ("Mouse", 2)]

/-- `calculate_risk_level` (`src/utils/helpers.py`, lines 120-131):
`risk = base_risk.get(category, 3)`, then `risk = min(5, risk + 1)` when
`confidence < LOW_CONFIDENCE_THRESHOLD`. -/
def calculate_risk_level (category : String) (confidence : ℚ) : ℕ :=
  let risk := (base_risk.lookup category).getD 3
  if confidence < LOW_CONFIDENCE_THRESHOLD then min 5 (risk + 1) else risk

theorem lookup_mem_values {α β : Type} [BEq α] (l : List (α × β)) (k : α) (v : β)
    (h : l.lookup k = some v) : v ∈ l.map Prod.snd := by
  induction l with
  | nil => simp [List.lookup] at h
  | cons p t ih =>
    rw [List.lookup] at h
    cases hk : (k == p.1) with
    | true =>
      simp only [hk] at h
      simp only [List.map_cons, List.mem_cons]
      exact Or.inl (Option.some_injective _ h).symm
    | false =>
      simp only [hk] at h
      simp only [List.map_cons, List.mem_cons]
      exact Or.inr (ih h)

theorem base_risk_getD_bounds (category : String) :
    2 ≤ ((base_risk.lookup category).getD 3) ∧ ((base_risk.lookup category).getD 3) ≤ 5 := by
  cases h : base_risk.lookup category with
  | none => simp
  | some v =>
    have hv : v ∈ base_risk.map Prod.snd := lookup_mem_values _ _ _ h
    have : v ∈ [4, 4, 5, 5, 4, 4, 3, 3, 2, 2] := by
      simpa [base_risk] using hv
    simp only [Option.getD_some]
    fin_cases this <;> simp

/-- C8: `calculate_risk_level` is bounded in `[1, 5]`; it is antitone in
confidence (dropping confidence never lowers risk); above the `0.5`
threshold it equals the static per-category base risk (`3` when the
category is not in the table); below the threshold it is the above-threshold
value incremented by one and capped at `5`. -/
theorem C8_risk_level_properties :
    ∀ (category : String) (cLo cHi : ℚ),
      (1 ≤ calculate_risk_level category cLo ∧ calculate_risk_level category cLo ≤ 5) ∧
      (cLo ≤ cHi → calculate_risk_level category cHi ≤ calculate_risk_level category cLo) ∧
      (LOW_CONFIDENCE_THRESHOLD ≤ cHi →
        calculate_risk_level category cHi = (base_risk.lookup category).getD 3) ∧
      (cLo < LOW_CONFIDENCE_THRESHOLD → LOW_CONFIDENCE_THRESHOLD ≤ cHi →
        calculate_risk_level category cLo = min 5 (calculate_risk_level category cHi + 1)) := by
  intro category cLo cHi
  obtain ⟨hb2, hb5⟩ := base_risk_getD_bounds category
  have hdef : ∀ c : ℚ, calculate_risk_level category c =
      if c < LOW_CONFIDENCE_THRESHOLD
      then min 5 (((base_risk.lookup category).getD 3) + 1)
      else (base_risk.lookup category).getD 3 := fun _ => rfl
  refine ⟨⟨?_, ?_⟩, ?_, ?_, ?_⟩
  · rw [hdef cLo]
    split
    · omega
    · omega
  · rw [hdef cLo]
    split
    · omega
    · omega
  · intro hle
    rw [hdef cLo, hdef cHi]
    by_cases h1 : cLo < LOW_CONFIDENCE_THRESHOLD
    · by_cases h2 : cHi < LOW_CONFIDENCE_THRESHOLD
      · rw [if_pos h1, if_pos h2]
      · rw [if_pos h1, if_neg h2]
        omega
    · by_cases h2 : cHi < LOW_CONFIDENCE_THRESHOLD
      · exact absurd (lt_of_le_of_lt hle h2) h1
      · rw [if_neg h1, if_neg h2]
  · intro hge
    rw [hdef cHi, if_neg (not_lt.mpr hge)]
  · intro hlt hge
    rw [hdef cLo, hdef cHi, if_pos hlt, if_neg (not_lt.mpr hge)]

/-- C8 witness: the theorem applied to category `"TV"` with confidences
`0.3` (low) and `0.9` (high). -/
theorem C8_risk_level_properties_witness :
    (3 : ℚ)/10 ≤ 9/10 ∧
    calculate_risk_level "TV" (9/10) ≤ calculate_risk_level "TV" (3/10) ∧
    calculate_risk_level "TV" (3/10) = min 5 (calculate_risk_level "TV" (9/10) + 1) := by
  have h := C8_risk_level_properties "TV" (3/10) (9/10)
  refine ⟨by norm_num, h.2.1 (by norm_num), h.2.2.2 (by norm_num [LOW_CONFIDENCE_THRESHOLD])
    (by norm_num [LOW_CONFIDENCE_THRESHOLD])⟩

/-- C9: `get_mapped_category` returns the table entry on a hit and the
label unchanged on a miss; every category it can produce either equals
the input label or belongs to `PRICE_CATEGORIES`; every value of
`YOLO_TO_PRICE_MAP` is a supported price category. -/
theorem C9_category_mapping_total_and_supported :
    (∀ (label v : String), YOLO_TO_PRICE_MAP.lookup label = some v →
      get_mapped_category label = v) ∧
    (∀ (label : String), YOLO_TO_PRICE_MAP.lookup label = none →
      get_mapped_category label = label) ∧
    (∀ (label : String), get_mapped_category label = label ∨
      is_valid_price_category (get_mapped_category label) = true) ∧
    (∀ p ∈ YOLO_TO_PRICE_MAP, is_valid_price_category p.2 = true) := by
  have hvals : ∀ v ∈ YOLO_TO_PRICE_MAP.map Prod.snd, is_valid_price_category v = true := by
    decide
  refine ⟨?_, ?_, ?_, ?_⟩
  · intro label v h
    unfold get_mapped_category
    rw [h]
    rfl
  · intro label h
    unfold get_mapped_category
    rw [h]
    rfl
  · intro label
    cases h : YOLO_TO_PRICE_MAP.lookup label with
    | none =>
      left
      unfold get_mapped_category
      rw [h]
      rfl
    | some v =>
      right
      unfold get_mapped_category
      rw [h, Option.getD_some]
      exact hvals v (lookup_mem_values _ _ _ h)
  · intro p hp
    exact hvals p.2 (List.mem_map_of_mem Prod.snd hp)

/-- C9 witness: the theorem applied to the concrete labels
`"Smartphone"` (a key, mapped to `"Handphone"`) and `"Unknown-Widget"`
(a miss, passed through unchanged). -/
theorem C9_category_mapping_witness :
    get_mapped_category "Smartphone" = "Handphone" ∧
    get_mapped_category "Unknown-Widget" = "Unknown-Widget" := by
  refine ⟨C9_category_mapping_total_and_supported.1 "Smartphone" "Handphone" (by decide),
    C9_category_mapping_total_and_supported.2.1 "Unknown-Widget" (by decide)⟩

/-- `ValidationResult` pydantic model (`src/models/response_models.py`). -/
structure ValidationResult where
  is_valid : Bool
  final_category : Option String
  detection_source : String
  gemini_feedback : String
deriving DecidableEq, Repr

/-- The fields `_process_validation_response` reads from the parsed
Gemini JSON (`src/services/gemini_service.py`, lines 385-389). -/
structure ValidationJson where
  is_category_correct : Bool
  correct_category : Option String
  reasoning : String
deriving DecidableEq, Repr

/-- Outcome of one Gemini text-generation call as consumed by
`validate_detection`: the call raises, returns an empty text, or returns
a text whose JSON parse either fails (`none`) or yields the fields of
`ValidationJson`. -/
inductive GeminiTextResult where
  | raises
  | empty
  | text (parsed : Option ValidationJson)
deriving DecidableEq, Repr

/-- `GeminiService._process_validation_response`
(`src/services/gemini_service.py`, lines 369-420) after JSON parsing,
plus the `json.JSONDecodeError` fallback (parse result `none`). -/
def process_validation_response (parsed : Option ValidationJson)
    (mapped_category : String) : ValidationResult :=
  match parsed with
  | none =>
    { is_valid := true, final_category := some mapped_category, detection_source := "YOLO",
      gemini_feedback := "Gemini response parsing failed - using YOLO prediction" }
  | some j =>
    if j.is_category_correct then
      { is_valid := true, final_category := some mapped_category, detection_source := "YOLO",
        gemini_feedback := "Category validated by Gemini: " ++ j.reasoning }
    else
      match j.correct_category with
      | some c =>
        if is_valid_price_category c then
          { is_valid := true, final_category := some c,
            detection_source := "Gemini Interfered",
            gemini_feedback := "Corrected from " ++ mapped_category ++ " to " ++ c ++ ": "
              ++ j.reasoning }
        else
          { is_valid := false, final_category := none, detection_source := "Rejected",
            gemini_feedback := "No valid e-waste detected: " ++ j.reasoning }
      | none =>
        { is_valid := false, final_category := none, detection_source := "Rejected",
          gemini_feedback := "No valid e-waste detected: " ++ j.reasoning }

/-- `GeminiService.validate_detection` (`src/services/gemini_service.py`,
lines 37-125).  `is_available` models `self.is_available and self.model is
not None`; the external call's outcome is the `resp` argument.  In Python a
falsy (empty) suggested category also takes the `Rejected` branch; that
coincides with `is_valid_price_category "" = false`, so `Option.some ""`
is handled identically here. -/
def validate_detection (is_available : Bool) (resp : GeminiTextResult)
    (mapped_category : String) : ValidationResult :=
  if ¬ is_available then
    { is_valid := true, final_category := some mapped_category, detection_source := "YOLO",
      gemini_feedback := "Gemini validation unavailable" }
  else
    match resp with
    | .raises =>
      { is_valid := true, final_category := some mapped_category, detection_source := "YOLO",
        gemini_feedback := "Gemini validation error" }
    | .empty =>
      { is_valid := true, final_category := some mapped_category, detection_source := "YOLO",
        gemini_feedback := "Gemini validation failed - empty response" }
    | .text parsed => process_validation_response parsed mapped_category

/-- Python `validation.final_category or mapped_category`
(`src/services/detection_service.py`, line 281): `None` and the empty
string are both falsy. -/
def pyOrDefault (o : Option String) (dflt : String) : String :=
  match o with
  | none => dflt
  | some s => if s = "" then dflt else s

/-- The validation stage of `process_image_complete`
(`src/services/detection_service.py`, lines 260-288): returns the pair
`(final_category, detection_source)`.  `escRaises` models an exception
escaping the `await self.gemini_service.validate_detection(...)` call
itself (caught by the surrounding `except`, line 285). -/
def validationPhase (is_available escRaises : Bool) (resp : GeminiTextResult)
    (mapped_category : String) : String × String :=
  if escRaises then (mapped_category, "YOLO (Gemini exception)")
  else if ¬ (validate_detection is_available resp mapped_category).is_valid then
    (mapped_category, "YOLO (Gemini fail)")
  else
    (pyOrDefault (validate_detection is_available resp mapped_category).final_category
       mapped_category,
     (validate_detection is_available resp mapped_category).detection_source)

/-- Outcome of the damage-analysis Gemini call as consumed by
`analyze_damage_level`: raises, empty text, JSON parse failure (also
covers a non-int `damage_level` raising `ValueError` in `int(...)`), or
a parsed JSON object with optional `damage_level` / `analysis` fields. -/
inductive DamageResp where
  | raises
  | empty
  | parseFail
  | parsed (damage_level : Option ℤ) (analysis : Option String)
deriving DecidableEq, Repr

/-- `GeminiService.analyze_damage_level` (`src/services/gemini_service.py`,
lines 273-335): `int(result.get("damage_level", 3))` with NO clamping to
the 1-5 range, `result.get("analysis", "No detailed analysis available")`,
and default `3` on every failure path. -/
def analyze_damage_level (is_available : Bool) (resp : DamageResp) : ℤ × String :=
  if ¬ is_available then (3, "Damage analysis unavailable")
  else
    match resp with
    | .raises => (3, "Damage analysis error")
    | .empty => (3, "Damage analysis failed - empty response")
    | .parseFail => (3, "Damage analysis parsing failed")
    | .parsed lvl analysis => (lvl.getD 3, analysis.getD "No detailed analysis available")

/-- The damage stage of `process_image_complete`
(`src/services/detection_service.py`, lines 290-306): `escRaises` models
an exception escaping the awaited call (caught at line 304, default 3). -/
def damagePhase (is_available escRaises : Bool) (resp : DamageResp) : ℤ :=
  if escRaises then 3 else (analyze_damage_level is_available resp).1

/-- Python `\s` restricted to ASCII: space, tab, newline, carriage
return, vertical tab, form feed.  (Non-ASCII Unicode whitespace is not
modelled.) -/
def pyIsSpace (c : Char) : Bool :=
  c == ' ' || c == '\t' || c == '\n' || c == '\r' || c == '\x0b' || c == '\x0c'

/-- Match `kw` (already lowercase) case-insensitively at the head of `s`;
on success return the remainder. -/
def matchKeywordAt (kw : List Char) (s : List Char) : Option (List Char) :=
  match kw, s with
  | [], rest => some rest
  | _ :: _, [] => none
  | k :: ks, c :: cs => if c.toLower = k then matchKeywordAt ks cs else none

/-- Second substitution of `_clean_description`
(`src/services/detection_service.py`, line 122):
`re.sub(r'^(kategori|analisis|deskripsi)[:.]\s*', '', ..., re.IGNORECASE)`
— anchored at the very start of the string (no MULTILINE flag). -/
def stripKeywordLead (s : List Char) : List Char :=
  let tryOne : String → Option (List Char) := fun kw =>
    match matchKeywordAt kw.data s with
    | none => none
    | some rest =>
      match rest with
      | c :: rest2 => if c == ':' || c == '.' then some (rest2.dropWhile pyIsSpace) else none
      | [] => none
  match tryOne "kategori" with
  | some r => r
  | none =>
    match tryOne "analisis" with
    | some r => r
    | none =>
      match tryOne "deskripsi" with
      | some r => r
      | none => s

/-- Match `\d+\.` at the head of `s` (ASCII digits); on success return the
remainder after the dot. -/
def matchNumDot (s : List Char) : Option (List Char) :=
  let digits := s.takeWhile Char.isDigit
  if digits.isEmpty then none
  else
    match s.drop digits.length with
    | c :: rest => if c == '.' then some rest else none
    | [] => none

/-- Consume `\s*` after a matched line prefix; the next scan position is
a MULTILINE line start iff the consumed whitespace ends with a newline. -/
def afterWsLineStart (rest : List Char) : Bool × List Char :=
  let ws := rest.takeWhile pyIsSpace
  (ws.getLast? == some '\n', rest.drop ws.length)

/-- Third substitution of `_clean_description` (line 125):
`re.sub(r'^\d+\.\s*', '', ..., re.MULTILINE)`, scanning left to right with
`^` anchored at the string start and after each newline.  `fuel` is the
length of the scanned list; every step consumes at least one character. -/
def stripNumberedLeads (fuel : ℕ) (atLineStart : Bool) (s : List Char) : List Char :=
  match fuel, s with
  | 0, rest => rest
  | _ + 1, [] => []
  | fuel + 1, c :: cs =>
    if atLineStart then
      match matchNumDot (c :: cs) with
      | some rest =>
        let p := afterWsLineStart rest
        stripNumberedLeads fuel p.1 p.2
      | none => c :: stripNumberedLeads fuel (c == '\n') cs
    else
      c :: stripNumberedLeads fuel (c == '\n') cs

/-- Fourth substitution of `_clean_description` (line 126):
`re.sub(r'^[-•]\s*', '', ..., re.MULTILINE)`. -/
def stripBulletLeads (fuel : ℕ) (atLineStart : Bool) (s : List Char) : List Char :=
  match fuel, s with
  | 0, rest => rest
  | _ + 1, [] => []
  | fuel + 1, c :: cs =>
    if atLineStart && (c == '-' || c == '•') then
      let p := afterWsLineStart cs
      stripBulletLeads fuel p.1 p.2
    else
      c :: stripBulletLeads fuel (c == '\n') cs

/-- Fifth substitution of `_clean_description` (line 129):
`re.sub(r'\s+', ' ', ...)` — collapse each whitespace run to one space. -/
def collapseWsGo (prevSpace : Bool) : List Char → List Char
  | [] => []
  | c :: cs =>
    if pyIsSpace c then
      if prevSpace then collapseWsGo true cs
      else ' ' :: collapseWsGo true cs
    else c :: collapseWsGo false cs

/-- Python `str.strip()` (ASCII whitespace). -/
def pyStrip (s : List Char) : List Char :=
  ((s.dropWhile pyIsSpace).reverse.dropWhile pyIsSpace).reverse

/-- Final step of `_clean_description` (lines 133-134): if the cleaned
text exceeds 100 characters, keep `description.split('.')[0] + '.'` —
the characters before the first dot (the whole string when none). -/
def truncateLong (s : String) : String :=
  if 100 < s.length then String.mk (s.data.takeWhile (fun c => !(c == '.'))) ++ "." else s

/-- `DetectionService._clean_description`
(`src/services/detection_service.py`, lines 108-136). -/
def clean_description (description : String) : String :=
  let s1 := description.data.filter (fun c => !(c == '*' || c == '_' || c == '#'))
  let s2 := stripKeywordLead s1
  let s3 := stripNumberedLeads s2.length true s2
  let s4 := stripBulletLeads s3.length true s3
  let s5 := collapseWsGo false s4
  let s6 := pyStrip s5
  truncateLong (String.mk s6)

/-- Outcome of one Gemini content-generation call (`generate_description`
or `generate_suggestions`): the call raises, returns an empty/falsy text,
or returns a text. -/
inductive GenResp where
  | raises
  | empty
  | text (s : String)
deriving DecidableEq, Repr

/-- `GeminiService.generate_description`
(`src/services/gemini_service.py`, lines 127-189): on unavailability,
exception or empty response, the default `"Perangkat elektronik " +
category.lower()`; otherwise `response.text.strip()`. -/
def generate_description (is_available : Bool) (resp : GenResp) (category : String) : String :=
  if ¬ is_available then "Perangkat elektronik " ++ category.toLower
  else
    match resp with
    | .raises => "Perangkat elektronik " ++ category.toLower
    | .empty => "Perangkat elektronik " ++ category.toLower
    | .text s => String.mk (pyStrip s.data)

/-- The `default_suggestions` list of `GeminiService.generate_suggestions`
(`src/services/gemini_service.py`, lines 195-199); the same three strings
are written inline in `process_image_complete`
(`src/services/detection_service.py`, lines 239-243 and 331-335). -/
def default_suggestions : List String :=
  ["Periksa panduan manufacturer",
   "Pisahkan komponen berbahaya",
   "Bawa ke pusat daur ulang e-waste"]

/-- Python `str.split(sep)` for a single-character separator: split at
every occurrence, keeping empty pieces (`"".split(sep)` gives `[""]`). -/
def pySplitChar (sep : Char) : List Char → List (List Char)
  | [] => [[]]
  | c :: cs =>
    match pySplitChar sep cs with
    | [] => [[c]]
    | r :: rs => if c = sep then [] :: r :: rs else (c :: r) :: rs

/-- The digit strings `str(i)` for `i in range(1, 10)` (each a single
character). -/
def oneToNine : List Char := ['1', '2', '3', '4', '5', '6', '7', '8', '9']

/-- Line filter of the suggestion parser (line 261):
`line.strip() and any(line.strip().startswith(str(i)) for i in range(1, 10))`
— the stripped line is nonempty and starts with a digit 1-9. -/
def lineIsNumbered (line : List Char) : Bool :=
  match pyStrip line with
  | [] => false
  | c :: _ => oneToNine.contains c

/-- `line.split('.', 1)[1]` (line 262): everything after the first dot;
`none` models the `IndexError` raised when the line contains no dot. -/
def afterFirstDot : List Char → Option (List Char)
  | [] => none
  | c :: cs => if c = '.' then some cs else afterFirstDot cs

/-- The parsing loop of `generate_suggestions` (lines 259-263); `none`
models an `IndexError` escaping the loop (caught by the surrounding
`except`, line 269). -/
def collectSuggestions : List (List Char) → Option (List String)
  | [] => some []
  | line :: lines =>
    if lineIsNumbered line then
      match afterFirstDot line with
      | none => none
      | some suffix =>
        match collectSuggestions lines with
        | none => none
        | some rest => some (String.mk (pyStrip suffix) :: rest)
    else collectSuggestions lines

/-- The fill loop of `generate_suggestions` (lines 265-266):
`while len(suggestions) < 3: suggestions.append(default_suggestions[len(suggestions)])`. -/
def fillDefaults (sugg : List String) : List String :=
  sugg ++ default_suggestions.drop sugg.length

/-- `GeminiService.generate_suggestions`
(`src/services/gemini_service.py`, lines 191-271). -/
def generate_suggestions (is_available : Bool) (resp : GenResp) : List String :=
  if ¬ is_available then default_suggestions
  else
    match resp with
    | .raises => default_suggestions
    | .empty => default_suggestions
    | .text s =>
      match collectSuggestions (pySplitChar '\n' (pyStrip s.data)) with
      | none => default_suggestions
      | some sugg => (fillDefaults sugg).take 3

/-- Environment of one `_generate_content_with_timeout` call: whether the
10-second deadline expires, and the outcomes of the two wrapped calls. -/
structure ContentEnv where
  timesOut : Bool
  descResp : GenResp
  suggResp : GenResp
deriving DecidableEq, Repr

/-- `DetectionService._generate_content_with_timeout`
(`src/services/detection_service.py`, lines 138-156): on
`asyncio.TimeoutError` returns `(category + " terdeteksi dalam gambar.",
["Bawa ke pusat daur ulang e-waste terdekat."])`; otherwise the cleaned
description and the suggestions. -/
def generate_content_with_timeout (is_available : Bool) (env : ContentEnv)
    (category : String) : String × List String :=
  if env.timesOut then
    (category ++ " terdeteksi dalam gambar.", ["Bawa ke pusat daur ulang e-waste terdekat."])
  else
    (clean_description (generate_description is_available env.descResp category),
     generate_suggestions is_available env.suggResp)

/-- The description/suggestions stage of `process_image_complete`
(`src/services/detection_service.py`, lines 310-335): raises `ValueError`
when the description is empty or the suggestions list is empty, caught
by the `except` that substitutes the default description and the three
generic fallback suggestions. -/
def contentPhase (is_available : Bool) (env : ContentEnv) (final_category : String) :
    String × List String :=
  if (generate_content_with_timeout is_available env final_category).1 = "" ∨
      (generate_content_with_timeout is_available env final_category).2 = [] then
    ("Perangkat elektronik " ++ final_category.toLower, default_suggestions)
  else generate_content_with_timeout is_available env final_category

/-- `FullPrediction` pydantic model (`src/models/response_models.py`). -/
structure FullPrediction where
  id : String
  category : String
  confidence : ℚ
  regression_result : Option ℤ
  description : String
  bbox : Box
  suggestion : List String
  risk_lvl : ℕ
  damage_level : ℤ
  detection_source : String
deriving DecidableEq, Repr

/-- Per-detection environment: the data the external collaborators
(temporary files, PIL, Gemini) supply for one detection in
`process_image_complete`.  `cropRaises` models an exception raised by
`_save_cropped_bbox` (line 231), which is NOT inside any per-detection
`try` block; `cropOpenFails`/`cropW`/`cropH` feed `_is_valid_crop`;
`newId` is the `generate_unique_id()` result. -/
structure DetEnv where
  newId : String
  cropRaises : Bool
  cropOpenFails : Bool
  cropW : ℕ
  cropH : ℕ
  valEscRaises : Bool
  valResp : GeminiTextResult
  damageEscRaises : Bool
  damageResp : DamageResp
  content : ContentEnv
deriving Repr

/-- `DetectionService._is_valid_crop`
(`src/services/detection_service.py`, lines 177-185): width and height of
the saved crop must both be `≥ min_size` (default 32); any exception while
opening the crop yields `false`. -/
def is_valid_crop (env : DetEnv) (min_size : ℕ) : Bool :=
  if env.cropOpenFails then false
  else min_size ≤ env.cropW && min_size ≤ env.cropH

/-- Which external Gemini capabilities the loop body invokes for one
detection (used to state the minimum-size guard C5). -/
inductive GeminiCall where
  | validation
  | damage
  | description
  | suggestions
deriving DecidableEq, Repr

/-- Body of the per-detection loop of `process_image_complete`
(`src/services/detection_service.py`, lines 228-349), after the crop has
been saved successfully: the minimum-crop-size guard, the validation
stage, the damage stage, the price lookup, the content stage and the
assembly of the `FullPrediction`.  Also returns the list of Gemini
capabilities invoked (empty when the service is unavailable, because
every `GeminiService` method returns its fallback before calling the
model in that case).  `priceFn` models `PricePredictor.predict_price`,
which catches all its exceptions and returns `None` on any failure. -/
def processDetection (is_available : Bool) (priceFn : String → Option ℤ)
    (env : DetEnv) (det : Detection) : FullPrediction × List GeminiCall :=
  let mapped_category := get_mapped_category det.category
  if ¬ is_valid_crop env 32 then
    let final_category := mapped_category
    ({ id := env.newId
       category := final_category
       confidence := det.confidence
       regression_result := priceFn final_category
       description := "Perangkat elektronik " ++ final_category.toLower
       bbox := det.bbox
       suggestion := default_suggestions
       risk_lvl := calculate_risk_level final_category det.confidence
       damage_level := 3
       detection_source := "YOLO (crop too small)" }, [])
  else
    let vres := validationPhase is_available env.valEscRaises env.valResp mapped_category
    let final_category := vres.1
    let damage_level := damagePhase is_available env.damageEscRaises env.damageResp
    let price := priceFn final_category
    let content := contentPhase is_available env.content final_category
    ({ id := env.newId
       category := final_category
       confidence := det.confidence
       regression_result := price
       description := content.1
       bbox := det.bbox
       suggestion := content.2
       risk_lvl := calculate_risk_level final_category det.confidence
       damage_level := damage_level
       detection_source := vres.2 },
     if is_available then
       [GeminiCall.validation, GeminiCall.damage, GeminiCall.description,
        GeminiCall.suggestions]
     else [])

/-- The `for det in filtered_detections` loop of `process_image_complete`
(`src/services/detection_service.py`, lines 228-349).  An exception from
`_save_cropped_bbox` (modelled by `cropRaises`) is not caught inside the
loop: it propagates to the outer `except` (line 353), aborting the whole
request (`Except.error`). -/
def processLoop (is_available : Bool) (priceFn : String → Option ℤ)
    (envOf : Detection → DetEnv) : List Detection → Except Unit (List FullPrediction)
  | [] => Except.ok []
  | det :: rest =>
    if (envOf det).cropRaises then Except.error ()
    else
      match processLoop is_available priceFn envOf rest with
      | Except.ok ps =>
        Except.ok ((processDetection is_available priceFn (envOf det) det).1 :: ps)
      | Except.error e => Except.error e

/-- `DetectionService.process_image_complete`
(`src/services/detection_service.py`, lines 187-360), taking the YOLO
detections as input (the detector is an external capability): returns
`[]` when YOLO is unavailable or no detections were found; otherwise
suppresses overlaps at threshold `1/2` and runs the per-detection loop;
the outer `except` (lines 353-355) converts any escaped exception into an
empty prediction list. -/
def process_image_complete (yolo_available is_available : Bool)
    (priceFn : String → Option ℤ) (envOf : Detection → DetEnv)
    (detections : List Detection) : List FullPrediction :=
  if ¬ yolo_available then []
  else if detections = [] then []
  else
    match processLoop is_available priceFn envOf
        (filter_overlapping_detections detections (1/2)) with
    | Except.ok preds => preds
    | Except.error _ => []

/-- C1: `_filter_overlapping_detections` equals the deterministic greedy
reference algorithm of the spec — sort by confidence descending with a
stable tie-break preserving input order, accept a detection iff its IoU
against every already-accepted detection is `≤` the threshold, drop
rejected detections entirely.  Both sides are pure functions of the input
list, so the same input (including tie order) always yields the same
surviving set. -/
theorem C1_suppress_equals_greedy_reference :
    ∀ (detections : List Detection) (iouThreshold : ℚ),
      filter_overlapping_detections detections iouThreshold
        = Suppress detections iouThreshold :=
  fun detections iouThreshold => filter_overlapping_eq_Suppress detections iouThreshold

theorem processDetection_bbox (is_available : Bool) (priceFn : String → Option ℤ)
    (env : DetEnv) (det : Detection) :
    (processDetection is_available priceFn env det).1.bbox = det.bbox := by
  unfold processDetection
  split
  · rfl
  · rfl

theorem processLoop_ok_eq_map (is_available : Bool) (priceFn : String → Option ℤ)
    (envOf : Detection → DetEnv) :
    ∀ (l : List Detection) (ps : List FullPrediction),
      processLoop is_available priceFn envOf l = Except.ok ps →
      ps = l.map (fun d => (processDetection is_available priceFn (envOf d) d).1) := by
  intro l
  induction l with
  | nil =>
    intro ps h
    simp only [processLoop] at h
    injection h with h
    rw [List.map_nil]
    exact h.symm
  | cons d rest ih =>
    intro ps h
    simp only [processLoop] at h
    by_cases hc : (envOf d).cropRaises = true
    · rw [if_pos hc] at h
      exact Except.noConfusion h
    · rw [if_neg hc] at h
      cases hrec : processLoop is_available priceFn envOf rest with
      | ok qs =>
        rw [hrec] at h
        injection h with h2
        rw [← h2, List.map_cons, ih qs hrec]
      | error e =>
        rw [hrec] at h
        exact Except.noConfusion h

/-- C2: every response list produced by `process_image_complete` is
pairwise non-overlapping: no two returned predictions have bounding
boxes with IoU above the suppression threshold `1/2` — each result's
bbox is copied unchanged from a detection that survived the overlap
filter. -/
theorem C2_results_pairwise_low_iou :
    ∀ (yolo_available is_available : Bool) (priceFn : String → Option ℤ)
      (envOf : Detection → DetEnv) (detections : List Detection),
      (process_image_complete yolo_available is_available priceFn envOf
        detections).Pairwise
        (fun p q => calculate_iou p.bbox q.bbox ≤ 1/2) := by
  intro ya ia priceFn envOf dets
  unfold process_image_complete
  split
  · exact List.Pairwise.nil
  · split
    · exact List.Pairwise.nil
    · split
      · rename_i preds heq
        rw [processLoop_ok_eq_map ia priceFn envOf _ preds heq, List.pairwise_map]
        apply List.Pairwise.imp ?_ (filter_overlapping_pairwise dets (1/2))
        intro a b hab
        rw [processDetection_bbox, processDetection_bbox]
        exact hab
      · exact List.Pairwise.nil

/-- A Gemini validation JSON that confirms the candidate category. -/
def confirmedJson : ValidationJson :=
  { is_category_correct := true, correct_category := none, reasoning := "ok" }

/-- A Gemini validation JSON correcting to a category outside
`PRICE_CATEGORIES`. -/
def badCorrectionJson : ValidationJson :=
  { is_category_correct := false, correct_category := some "Gadget-X", reasoning := "r" }

/-- C3 counterexample: when the validation capability is unavailable the
final category is the canonical mapped one, but `detection_source` is
`"YOLO"` — exactly the value produced by a successful Gemini
confirmation, so the fallback is NOT distinguishable from a successful
confirmation, contrary to the claim. -/
theorem C3_counterexample_unavailable_source :
    validationPhase false false GeminiTextResult.empty "Laptop" = ("Laptop", "YOLO") ∧
    validationPhase true false (GeminiTextResult.text (some confirmedJson)) "Laptop"
      = ("Laptop", "YOLO") := by
  exact ⟨rfl, rfl⟩

/-- C3 amended: in every validation-failure case the final category is
the canonical mapped category; `detection_source` distinguishes the
fallback (`"YOLO (Gemini exception)"` when the awaited call raises in the
orchestrator, `"YOLO (Gemini fail)"` when Gemini reports the detection
invalid or corrects to a category outside `PRICE_CATEGORIES`), but it is
the plain `"YOLO"` — identical to a successful confirmation — when the
capability is unavailable, the call raises inside the service, the
response is empty, or the response cannot be parsed. -/
theorem C3_amended_validation_fallback :
    ∀ (mapped_category : String) (escRaises is_available : Bool) (resp : GeminiTextResult),
      (escRaises = true →
        validationPhase is_available escRaises resp mapped_category
          = (mapped_category, "YOLO (Gemini exception)")) ∧
      (escRaises = false → is_available = false →
        validationPhase is_available escRaises resp mapped_category
          = (mapped_category, "YOLO")) ∧
      (escRaises = false → is_available = true →
        (resp = GeminiTextResult.raises ∨ resp = GeminiTextResult.empty ∨
          resp = GeminiTextResult.text none) →
        validationPhase is_available escRaises resp mapped_category
          = (mapped_category, "YOLO")) ∧
      (∀ j : ValidationJson, escRaises = false → is_available = true →
        resp = GeminiTextResult.text (some j) → j.is_category_correct = false →
        (∀ c, j.correct_category = some c → is_valid_price_category c = false) →
        validationPhase is_available escRaises resp mapped_category
          = (mapped_category, "YOLO (Gemini fail)")) := by
  intro mapped_category escRaises is_available resp
  refine ⟨?_, ?_, ?_, ?_⟩
  · intro he
    unfold validationPhase
    rw [if_pos he]
  · intro he hia
    subst he
    subst hia
    by_cases hm : mapped_category = ""
    · simp [validationPhase, validate_detection, pyOrDefault, hm]
    · simp [validationPhase, validate_detection, pyOrDefault, hm]
  · intro he hia hresp
    subst he
    subst hia
    rcases hresp with h | h | h <;> subst h <;>
      · by_cases hm : mapped_category = ""
        · simp [validationPhase, validate_detection, process_validation_response,
            pyOrDefault, hm]
        · simp [validationPhase, validate_detection, process_validation_response,
            pyOrDefault, hm]
  · intro j he hia hresp hcorrect hinvalid
    subst he
    subst hia
    subst hresp
    cases hc : j.correct_category with
    | none =>
      simp [validationPhase, validate_detection, process_validation_response, hcorrect, hc]
    | some c =>
      simp [validationPhase, validate_detection, process_validation_response, hcorrect, hc,
        hinvalid c hc]

/-- C3 witness: the amended theorem applied to a corrected category
outside `PRICE_CATEGORIES`, which does produce the distinguishable
`"YOLO (Gemini fail)"` fallback. -/
theorem C3_amended_validation_fallback_witness :
    validationPhase true false (GeminiTextResult.text (some badCorrectionJson)) "Laptop"
      = ("Laptop", "YOLO (Gemini fail)") := by
  refine (C3_amended_validation_fallback "Laptop" false true
      (GeminiTextResult.text (some badCorrectionJson))).2.2.2
      badCorrectionJson rfl rfl rfl rfl ?_
  intro c hc
  have hc' : (some "Gadget-X" : Option String) = some c := hc
  injection hc' with hc2
  rw [← hc2]
  decide

theorem processLoop_ok_of_no_raise (is_available : Bool) (priceFn : String → Option ℤ)
    (envOf : Detection → DetEnv) :
    ∀ (l : List Detection), (∀ d ∈ l, (envOf d).cropRaises = false) →
      processLoop is_available priceFn envOf l
        = Except.ok (l.map (fun d => (processDetection is_available priceFn (envOf d) d).1)) := by
  intro l
  induction l with
  | nil => intro _; rfl
  | cons d rest ih =>
    intro h
    have hd : (envOf d).cropRaises = false := h d (List.mem_cons_self d rest)
    have hrest : ∀ x ∈ rest, (envOf x).cropRaises = false :=
      fun x hx => h x (List.mem_cons_of_mem d hx)
    simp only [processLoop]
    rw [if_neg (by simp [hd]), ih hrest, List.map_cons]

theorem processLoop_error_of_raise (is_available : Bool) (priceFn : String → Option ℤ)
    (envOf : Detection → DetEnv) :
    ∀ (l : List Detection), (∃ d ∈ l, (envOf d).cropRaises = true) →
      processLoop is_available priceFn envOf l = Except.error () := by
  intro l
  induction l with
  | nil => rintro ⟨d, hd, _⟩; exact absurd hd (List.not_mem_nil d)
  | cons d rest ih =>
    rintro ⟨x, hx, hraise⟩
    simp only [processLoop]
    by_cases hd : (envOf d).cropRaises = true
    · rw [if_pos hd]
    · rw [if_neg hd]
      have hxrest : x ∈ rest := by
        rcases List.mem_cons.mp hx with h | h
        · exact absurd (h ▸ hraise) hd
        · exact h
      rw [ih ⟨x, hxrest, hraise⟩]

/-- First detection of the C4 counterexample (its crop raises). -/
def d1C4 : Detection :=
  { id := "a", category := "Laptop", confidence := 9/10,
    bbox := { x1 := 0, y1 := 0, x2 := 1, y2 := 1 } }

/-- Second detection of the C4 counterexample (healthy, disjoint bbox). -/
def d2C4 : Detection :=
  { id := "b", category := "Printer", confidence := 8/10,
    bbox := { x1 := 10, y1 := 10, x2 := 11, y2 := 11 } }

/-- A per-detection environment in which every stage succeeds. -/
def healthyEnv : DetEnv :=
  { newId := "p", cropRaises := false, cropOpenFails := false,
    cropW := 100, cropH := 100, valEscRaises := false,
    valResp := GeminiTextResult.text (some confirmedJson),
    damageEscRaises := false, damageResp := DamageResp.parsed (some 2) (some "ok"),
    content := { timesOut := false, descResp := GenResp.text "desc",
                 suggResp := GenResp.text "1. a" } }

/-- Environment for the C4 counterexample: only detection `"a"` fails,
and only in crop preparation. -/
def envOfC4 : Detection → DetEnv :=
  fun d => if d.id = "a" then { healthyEnv with cropRaises := true } else healthyEnv

unseal Rat.add Rat.mul Rat.sub Rat.inv in
/-- C4 counterexample: both detections survive suppression and only the
first one's crop preparation raises, yet the whole request returns the
empty prediction list — the healthy second detection's result is lost,
so one failing detection does sink the batch, contrary to the claim. -/
theorem C4_counterexample_crop_exception_empties_batch :
    (envOfC4 d2C4).cropRaises = false ∧
    filter_overlapping_detections [d1C4, d2C4] (1/2) = [d1C4, d2C4] ∧
    process_image_complete true true (fun _ => none) envOfC4 [d1C4, d2C4] = [] := by
  refine ⟨by decide, by decide, by decide⟩

/-- C4 amended: an exception raised inside a per-detection stage that is
wrapped in its own `try` (validation, damage analysis, description and
suggestion generation — all modelled by the per-detection environment)
degrades only that detection's result, and every surviving detection
yields exactly its own prediction; but an exception in crop preparation
(`_save_cropped_bbox`, which is outside the per-stage `try` blocks)
escapes the loop and the whole request returns an empty prediction list,
discarding every detection's result. -/
theorem C4_amended_per_detection_isolation :
    ∀ (is_available : Bool) (priceFn : String → Option ℤ)
      (envOf : Detection → DetEnv) (detections : List Detection),
      ((∀ d ∈ filter_overlapping_detections detections (1/2),
          (envOf d).cropRaises = false) →
        detections ≠ [] →
        process_image_complete true is_available priceFn envOf detections
          = (filter_overlapping_detections detections (1/2)).map
              (fun d => (processDetection is_available priceFn (envOf d) d).1)) ∧
      ((∃ d ∈ filter_overlapping_detections detections (1/2),
          (envOf d).cropRaises = true) →
        process_image_complete true is_available priceFn envOf detections = []) := by
  intro ia priceFn envOf dets
  constructor
  · intro hno hne
    unfold process_image_complete
    rw [if_neg (by simp), if_neg hne,
      processLoop_ok_of_no_raise ia priceFn envOf _ hno]
  · intro hex
    have hne : dets ≠ [] := by
      intro h
      subst h
      rcases hex with ⟨d, hd, _⟩
      simp [filter_overlapping_detections] at hd
    unfold process_image_complete
    rw [if_neg (by simp), if_neg hne,
      processLoop_error_of_raise ia priceFn envOf _ hex]

unseal Rat.add Rat.mul Rat.sub Rat.inv in
/-- C4 witness: the amended theorem applied to the concrete two-detection
input with no crop failure, producing one result per surviving
detection even though nothing else is assumed about the stages. -/
theorem C4_amended_per_detection_isolation_witness :
    process_image_complete true true (fun _ => none) (fun _ => healthyEnv) [d1C4, d2C4]
      = (filter_overlapping_detections [d1C4, d2C4] (1/2)).map
          (fun d => (processDetection true (fun _ => none) healthyEnv d).1) := by
  exact (C4_amended_per_detection_isolation true (fun _ => none) (fun _ => healthyEnv)
    [d1C4, d2C4]).1 (fun d _ => rfl) (by decide)

theorem validate_detection_source_cases (is_available : Bool) (resp : GeminiTextResult)
    (m : String) :
    (validate_detection is_available resp m).detection_source = "YOLO" ∨
    (validate_detection is_available resp m).detection_source = "Gemini Interfered" ∨
    (validate_detection is_available resp m).detection_source = "Rejected" := by
  by_cases hia : is_available = true
  · cases resp with
    | raises => left; simp [validate_detection, hia]
    | empty => left; simp [validate_detection, hia]
    | text parsed =>
      cases parsed with
      | none => left; simp [validate_detection, process_validation_response, hia]
      | some j =>
        by_cases hc : j.is_category_correct = true
        · left
          simp [validate_detection, process_validation_response, hia, hc]
        · cases hcc : j.correct_category with
          | none =>
            right; right
            simp [validate_detection, process_validation_response, hia, hc, hcc]
          | some c =>
            by_cases hv : is_valid_price_category c = true
            · right; left
              simp [validate_detection, process_validation_response, hia, hc, hcc, hv]
            · right; right
              simp [validate_detection, process_validation_response, hia, hc, hcc, hv]
  · left
    simp [validate_detection, hia]

/-- C5: a detection whose crop is below the 32-pixel floor in width or
height triggers no Gemini capability call at all; its result uses the
canonical mapped category, the default description, the default
suggestions, damage level 3 and the `"YOLO (crop too small)"` source —
a value no valid-crop detection can ever carry. -/
theorem C5_small_crop_guard :
    ∀ (is_available : Bool) (priceFn : String → Option ℤ) (env : DetEnv) (det : Detection),
      (env.cropW < 32 ∨ env.cropH < 32) →
      (processDetection is_available priceFn env det).2 = [] ∧
      (processDetection is_available priceFn env det).1.category
          = get_mapped_category det.category ∧
      (processDetection is_available priceFn env det).1.description
          = "Perangkat elektronik " ++ (get_mapped_category det.category).toLower ∧
      (processDetection is_available priceFn env det).1.suggestion = default_suggestions ∧
      (processDetection is_available priceFn env det).1.damage_level = 3 ∧
      (processDetection is_available priceFn env det).1.detection_source
          = "YOLO (crop too small)" ∧
      (∀ (env' : DetEnv) (det' : Detection), is_valid_crop env' 32 = true →
        (processDetection is_available priceFn env' det').1.detection_source
          ≠ "YOLO (crop too small)") := by
  intro ia priceFn env det h
  have hcrop : is_valid_crop env 32 = false := by
    unfold is_valid_crop
    rcases h with h | h
    · split
      · rfl
      · have h' : ¬ (32 ≤ env.cropW) := by omega
        simp [h']
    · split
      · rfl
      · have h' : ¬ (32 ≤ env.cropH) := by omega
        simp [h']
  have key : processDetection ia priceFn env det =
      ({ id := env.newId,
         category := get_mapped_category det.category,
         confidence := det.confidence,
         regression_result := priceFn (get_mapped_category det.category),
         description := "Perangkat elektronik " ++ (get_mapped_category det.category).toLower,
         bbox := det.bbox,
         suggestion := default_suggestions,
         risk_lvl := calculate_risk_level (get_mapped_category det.category) det.confidence,
         damage_level := 3,
         detection_source := "YOLO (crop too small)" }, []) := by
    unfold processDetection
    rw [if_pos (by simp [hcrop])]
  refine ⟨by rw [key], by rw [key], by rw [key], by rw [key], by rw [key], by rw [key], ?_⟩
  intro env' det' hvalid
  unfold processDetection
  rw [if_neg (by simp [hvalid])]
  show (validationPhase ia env'.valEscRaises env'.valResp
      (get_mapped_category det'.category)).2 ≠ "YOLO (crop too small)"
  have hsrc : ∀ s : String,
      s = "YOLO" ∨ s = "Gemini Interfered" ∨ s = "Rejected" ∨
        s = "YOLO (Gemini fail)" ∨ s = "YOLO (Gemini exception)" →
      s ≠ "YOLO (crop too small)" := by
    rintro s (rfl | rfl | rfl | rfl | rfl) <;> decide
  apply hsrc
  unfold validationPhase
  split
  · right; right; right; right; rfl
  · split
    · right; right; right; left; rfl
    · rcases validate_detection_source_cases ia env'.valResp
          (get_mapped_category det'.category) with hs | hs | hs
      · left; exact hs
      · right; left; exact hs
      · right; right; left; exact hs

unseal Rat.add Rat.mul Rat.sub Rat.inv in
/-- C5 witness: the theorem applied to a concrete 10×100-pixel crop. -/
theorem C5_small_crop_guard_witness :
    ((10 : ℕ) < 32 ∨ (100 : ℕ) < 32) ∧
    (processDetection true (fun _ => none)
      { healthyEnv with cropW := 10 } d1C4).2 = [] ∧
    (processDetection true (fun _ => none)
      { healthyEnv with cropW := 10 } d1C4).1.detection_source = "YOLO (crop too small)" := by
  have h := C5_small_crop_guard true (fun _ => none)
    { healthyEnv with cropW := 10 } d1C4 (Or.inl (by decide))
  exact ⟨Or.inl (by decide), h.1, h.2.2.2.2.2.1⟩

unseal Rat.add Rat.mul Rat.sub Rat.inv in
/-- C6 evaluation at the failing input: a well-formed damage response
with `"damage_level": 7` is passed through UNCLAMPED — the result's
`damage_level` is 7, outside the documented 1-5 range — while every
failure path (unavailable, raises, empty, unparseable, exception at the
orchestrator boundary) does default to 3 as the claim states. -/
theorem C6_damage_level_out_of_range :
    analyze_damage_level true (DamageResp.parsed (some 7) (some "cracked")) = (7, "cracked") ∧
    ¬ (1 ≤ (analyze_damage_level true (DamageResp.parsed (some 7) (some "cracked"))).1 ∧
       (analyze_damage_level true (DamageResp.parsed (some 7) (some "cracked"))).1 ≤ 5) ∧
    (processDetection true (fun _ => none)
      { healthyEnv with damageResp := DamageResp.parsed (some 7) (some "cracked") }
      d1C4).1.damage_level = 7 ∧
    damagePhase false false (DamageResp.parsed (some 1) none) = 3 ∧
    damagePhase true false DamageResp.raises = 3 ∧
    damagePhase true false DamageResp.empty = 3 ∧
    damagePhase true false DamageResp.parseFail = 3 ∧
    damagePhase true false (DamageResp.parsed none none) = 3 ∧
    damagePhase true true (DamageResp.parsed (some 1) none) = 3 := by
  refine ⟨rfl, by decide, by decide, rfl, rfl, rfl, rfl, rfl, rfl⟩

/-- C7 counterexample, falsifying two failure sub-cases of the claim.
Timeout: the result is `"<category> terdeteksi dalam gambar."` with a
SINGLE fallback suggestion — not the default description and not the
three generic fallbacks.  Fewer-than-expected: a response parsing to
only one numbered suggestion keeps the GENERATED description and pads
the parsed suggestion positionally with the defaults' tail — neither
field is the claimed fallback value. -/
theorem C7_counterexample_timeout_and_fewer_suggestions :
    (contentPhase true
      { timesOut := true, descResp := GenResp.empty, suggResp := GenResp.empty } "Laptop"
      = ("Laptop terdeteksi dalam gambar.", ["Bawa ke pusat daur ulang e-waste terdekat."]) ∧
     (contentPhase true
      { timesOut := true, descResp := GenResp.empty, suggResp := GenResp.empty }
      "Laptop").2.length = 1 ∧
     (contentPhase true
      { timesOut := true, descResp := GenResp.empty, suggResp := GenResp.empty }
      "Laptop").1 ≠ "Perangkat elektronik laptop") ∧
    (contentPhase true
      { timesOut := false, descResp := GenResp.text "kondisi baik",
        suggResp := GenResp.text "1. Lepas baterai" } "Laptop"
      = ("kondisi baik",
         ["Lepas baterai", "Pisahkan komponen berbahaya",
          "Bawa ke pusat daur ulang e-waste"]) ∧
     "kondisi baik" ≠ "Perangkat elektronik laptop" ∧
     ["Lepas baterai", "Pisahkan komponen berbahaya", "Bawa ke pusat daur ulang e-waste"]
       ≠ default_suggestions) := by
  refine ⟨⟨by decide, by decide, by decide⟩, ⟨by decide, by decide, by decide⟩⟩

theorem generate_suggestions_length_le (is_available : Bool) (resp : GenResp) :
    (generate_suggestions is_available resp).length ≤ 3 := by
  by_cases hia : is_available = true
  · cases resp with
    | raises => simp [generate_suggestions, hia, default_suggestions]
    | empty => simp [generate_suggestions, hia, default_suggestions]
    | text s =>
      simp only [generate_suggestions, hia]
      rw [if_neg (by simp)]
      cases h : collectSuggestions (pySplitChar '\n' (pyStrip s.data)) with
      | none => simp [default_suggestions]
      | some sugg =>
        simp only [List.length_take]
        omega
  · simp [generate_suggestions, hia, default_suggestions]

theorem generate_content_with_timeout_snd_le (is_available : Bool) (env : ContentEnv)
    (category : String) :
    (generate_content_with_timeout is_available env category).2.length ≤ 3 := by
  unfold generate_content_with_timeout
  split
  · simp
  · exact generate_suggestions_length_le is_available env.suggResp

theorem contentPhase_of_pair (is_available : Bool) (env : ContentEnv) (category d : String)
    (s : List String)
    (h : generate_content_with_timeout is_available env category = (d, s)) :
    contentPhase is_available env category
      = if d = "" ∨ s = []
        then ("Perangkat elektronik " ++ category.toLower, default_suggestions)
        else (d, s) := by
  unfold contentPhase
  rw [h]

theorem terdeteksi_append_ne_empty (category : String) :
    category ++ " terdeteksi dalam gambar." ≠ "" := by
  intro h
  have h2 : (category ++ " terdeteksi dalam gambar.").length = ("" : String).length :=
    congrArg String.length h
  rw [String.length_append] at h2
  have h3 : (" terdeteksi dalam gambar." : String).length = 25 := rfl
  have h4 : ("" : String).length = 0 := rfl
  omega

/-- C7 amended: on a timeout the result is the distinct string
`"<category> terdeteksi dalam gambar."` together with the SINGLE generic
suggestion (not the three defaults); when the capability is unavailable,
or the calls raise or return empty responses, the description is the
deterministic default derived from the final category (routed through
`_clean_description`) and the suggestions are the three generic
fallbacks; a missing description (empty after cleaning) replaces BOTH
fields with the default description and the three generic fallbacks, as
the claim states; but a response parsing to fewer than three suggestions
keeps the generated description and only pads the parsed suggestions
positionally with the defaults' tail (suggestions are always a list, so
the not-a-list case is vacuous); and in every result the suggestions
list has at most 3 entries. -/
theorem C7_amended_content_fallbacks :
    ∀ (is_available : Bool) (env : ContentEnv) (category : String),
      (env.timesOut = true →
        contentPhase is_available env category
          = (category ++ " terdeteksi dalam gambar.",
             ["Bawa ke pusat daur ulang e-waste terdekat."])) ∧
      (env.timesOut = false → is_available = false →
        (contentPhase is_available env category).2 = default_suggestions ∧
        ((contentPhase is_available env category).1
            = clean_description ("Perangkat elektronik " ++ category.toLower) ∨
         (contentPhase is_available env category).1
            = "Perangkat elektronik " ++ category.toLower)) ∧
      (env.timesOut = false → is_available = true →
        (env.descResp = GenResp.raises ∨ env.descResp = GenResp.empty) →
        (env.suggResp = GenResp.raises ∨ env.suggResp = GenResp.empty) →
        (contentPhase is_available env category).2 = default_suggestions ∧
        ((contentPhase is_available env category).1
            = clean_description ("Perangkat elektronik " ++ category.toLower) ∨
         (contentPhase is_available env category).1
            = "Perangkat elektronik " ++ category.toLower)) ∧
      (env.timesOut = false →
        clean_description (generate_description is_available env.descResp category) = "" →
        contentPhase is_available env category
          = ("Perangkat elektronik " ++ category.toLower, default_suggestions)) ∧
      (∀ (s : String) (sugg : List String),
        env.timesOut = false → is_available = true → env.suggResp = GenResp.text s →
        collectSuggestions (pySplitChar '\n' (pyStrip s.data)) = some sugg →
        sugg.length < 3 →
        generate_suggestions is_available env.suggResp
          = sugg ++ default_suggestions.drop sugg.length ∧
        (clean_description (generate_description is_available env.descResp category) ≠ "" →
          contentPhase is_available env category
            = (clean_description (generate_description is_available env.descResp category),
               sugg ++ default_suggestions.drop sugg.length))) ∧
      (contentPhase is_available env category).2.length ≤ 3 := by
  intro ia env category
  refine ⟨?_, ?_, ?_, ?_, ?_, ?_⟩
  · intro ht
    have hpair : generate_content_with_timeout ia env category
        = (category ++ " terdeteksi dalam gambar.",
           ["Bawa ke pusat daur ulang e-waste terdekat."]) := by
      unfold generate_content_with_timeout
      rw [if_pos ht]
    rw [contentPhase_of_pair ia env category _ _ hpair,
      if_neg (not_or.mpr ⟨terdeteksi_append_ne_empty category, by simp⟩)]
  · intro ht hia
    subst hia
    have hpair : generate_content_with_timeout false env category
        = (clean_description ("Perangkat elektronik " ++ category.toLower),
           default_suggestions) := by
      unfold generate_content_with_timeout
      rw [if_neg (by simp [ht])]
      rfl
    rw [contentPhase_of_pair false env category _ _ hpair]
    generalize clean_description ("Perangkat elektronik " ++ category.toLower) = cd
    by_cases hd : cd = ""
    · rw [if_pos (Or.inl hd)]
      exact ⟨rfl, Or.inr rfl⟩
    · rw [if_neg (not_or.mpr ⟨hd, by simp [default_suggestions]⟩)]
      exact ⟨rfl, Or.inl rfl⟩
  · intro ht hia hdr hsr
    subst hia
    have hdesc : generate_description true env.descResp category
        = "Perangkat elektronik " ++ category.toLower := by
      rcases hdr with h | h <;> rw [h] <;> rfl
    have hsugg : generate_suggestions true env.suggResp = default_suggestions := by
      rcases hsr with h | h <;> rw [h] <;> rfl
    have hpair : generate_content_with_timeout true env category
        = (clean_description ("Perangkat elektronik " ++ category.toLower),
           default_suggestions) := by
      unfold generate_content_with_timeout
      rw [if_neg (by simp [ht]), hdesc, hsugg]
    rw [contentPhase_of_pair true env category _ _ hpair]
    generalize clean_description ("Perangkat elektronik " ++ category.toLower) = cd
    by_cases hd : cd = ""
    · rw [if_pos (Or.inl hd)]
      exact ⟨rfl, Or.inr rfl⟩
    · rw [if_neg (not_or.mpr ⟨hd, by simp [default_suggestions]⟩)]
      exact ⟨rfl, Or.inl rfl⟩
  · intro ht hd
    have hpair : generate_content_with_timeout ia env category
        = (clean_description (generate_description ia env.descResp category),
           generate_suggestions ia env.suggResp) := by
      unfold generate_content_with_timeout
      rw [if_neg (by simp [ht])]
    rw [contentPhase_of_pair ia env category _ _ hpair, if_pos (Or.inl hd)]
  · intro s sugg ht hia hresp hparse hlen
    subst hia
    have hd3 : default_suggestions.length = 3 := rfl
    have hlen3 : (sugg ++ default_suggestions.drop sugg.length).length = 3 := by
      rw [List.length_append, List.length_drop]
      omega
    have htake : (fillDefaults sugg).take 3 = fillDefaults sugg := by
      apply List.take_of_length_le
      unfold fillDefaults
      rw [List.length_append, List.length_drop]
      omega
    have hgen : generate_suggestions true env.suggResp
        = sugg ++ default_suggestions.drop sugg.length := by
      rw [hresp]
      unfold generate_suggestions
      rw [if_neg (by simp)]
      show (match collectSuggestions (pySplitChar '\n' (pyStrip s.data)) with
            | none => default_suggestions
            | some sugg => (fillDefaults sugg).take 3)
          = sugg ++ default_suggestions.drop sugg.length
      rw [hparse]
      show (fillDefaults sugg).take 3 = sugg ++ default_suggestions.drop sugg.length
      rw [htake]
      rfl
    refine ⟨hgen, ?_⟩
    intro hdne
    have hpair : generate_content_with_timeout true env category
        = (clean_description (generate_description true env.descResp category),
           sugg ++ default_suggestions.drop sugg.length) := by
      unfold generate_content_with_timeout
      rw [if_neg (by simp [ht]), hgen]
    have hne : sugg ++ default_suggestions.drop sugg.length ≠ [] := by
      intro h0
      rw [h0] at hlen3
      exact absurd hlen3 (by decide)
    rw [contentPhase_of_pair true env category _ _ hpair,
      if_neg (not_or.mpr ⟨hdne, hne⟩)]
  · unfold contentPhase
    split
    · simp [default_suggestions]
    · exact generate_content_with_timeout_snd_le ia env category

/-- C7 witness: the amended theorem applied to a concrete unavailable
capability (three generic fallbacks), a concrete one-suggestion response
(positional padding with the defaults' tail), and a concrete timeout
(length 1, still at most 3). -/
theorem C7_amended_content_fallbacks_witness :
    (contentPhase false
      { timesOut := false, descResp := GenResp.raises, suggResp := GenResp.raises }
      "Laptop").2 = default_suggestions ∧
    generate_suggestions true (GenResp.text "1. Lepas baterai")
      = ["Lepas baterai"] ++ default_suggestions.drop 1 ∧
    (contentPhase true
      { timesOut := true, descResp := GenResp.empty, suggResp := GenResp.empty }
      "TV").2.length ≤ 3 := by
  refine ⟨((C7_amended_content_fallbacks false
      { timesOut := false, descResp := GenResp.raises, suggResp := GenResp.raises }
      "Laptop").2.1 rfl rfl).1,
    ((C7_amended_content_fallbacks true
      { timesOut := false, descResp := GenResp.text "kondisi baik",
        suggResp := GenResp.text "1. Lepas baterai" }
      "Laptop").2.2.2.2.1 "1. Lepas baterai" ["Lepas baterai"]
      rfl rfl rfl (by decide) (by decide)).1,
    (C7_amended_content_fallbacks true
      { timesOut := true, descResp := GenResp.empty, suggResp := GenResp.empty }
      "TV").2.2.2.2.2⟩

end EbsAi
